import Mathlib

set_option maxHeartbeats 1000000
set_option maxRecDepth 100000

namespace Teatime

/-- JSON values, modelling the serde_json data model the client's
(de)serialization layer works over. Object fields keep their order, as
serde emits struct fields in declaration order. -/
inductive Json : Type where
  | null : Json
  | bool (b : Bool) : Json
  | num (n : Int) : Json
  | str (s : String) : Json
  | arr (elems : List Json) : Json
  | obj (fields : List (String × Json)) : Json

/-- Error categories of `TeatimeError` (src/src/error.rs, `TeatimeErrorKind`). -/
inductive TeatimeErrorKind : Type where
  | HttpError
  | SerializationError
  | Other
  deriving DecidableEq

/-- The structured error of the library (src/src/error.rs, `TeatimeError`):
a message, a kind, and the HTTP status code (modelled as a `Nat`, the numeric
value of `reqwest::StatusCode`). -/
structure TeatimeError : Type where
  message : String
  kind : TeatimeErrorKind
  status_code : Nat
  deriving DecidableEq

/-- A raw HTTP response as this code observes it through `reqwest::Response`:
the numeric status code and the body text (`res.text()`); a 204 No-Content
response has body `""`. -/
structure RawResponse : Type where
  status : Nat
  body : String
  deriving DecidableEq

/-- Model of `Client::make_request` (src/src/lib.rs lines 835-846): execute the
request; when the status is a client error (400-499) or a server error
(500-599), return a `TeatimeError` of kind `HttpError` carrying the body text
as message and the response status; otherwise hand the raw response through. -/
def Client.make_request (res : RawResponse) : Except TeatimeError RawResponse :=
  if (400 ≤ res.status ∧ res.status ≤ 499) ∨ (500 ≤ res.status ∧ res.status ≤ 599) then
    Except.error { message := res.body
                 , kind := TeatimeErrorKind.HttpError
                 , status_code := res.status }
  else
    Except.ok res

/-- Model of `Client::parse_response` (src/src/lib.rs lines 853-861): read the
status first, then the body text, then run the target type's serde
deserializer (`serde_json::from_str`) on the text; on failure produce a
`SerializationError` carrying the original status. The deserializer for the
target type `T` is passed in as `dec`, mirroring the `T: DeserializeOwned`
genericity of the source. -/
def Client.parse_response {α : Type} (dec : String → Except String α)
    (res : RawResponse) : Except TeatimeError α :=
  match dec res.body with
  | Except.ok v => Except.ok v
  | Except.error e =>
      Except.error { message := "Error parsing response: " ++ e
                   , kind := TeatimeErrorKind.SerializationError
                   , status_code := res.status }

/-- Whitespace characters of the JSON grammar. -/
def isJsonWs (c : Char) : Bool :=
  c = ' ' || c = '\n' || c = '\t' || c = '\r'

/-- Drop leading JSON whitespace. -/
def skipWs : List Char → List Char
  | [] => []
  | c :: rest => if isJsonWs c then skipWs rest else c :: rest

/-- Split a leading run of ASCII digits off the input. -/
def takeDigits : List Char → List Char × List Char
  | [] => ([], [])
  | c :: rest =>
      if c.isDigit then
        let p := takeDigits rest
        (c :: p.1, p.2)
      else ([], c :: rest)

/-- Numeric value of a digit run. -/
def digitsToNat (ds : List Char) : Nat :=
  ds.foldl (fun a c => a * 10 + (c.toNat - 48)) 0

/-- Content of a JSON string literal up to the closing quote. Escape
sequences are outside the fragment this development evaluates and are
rejected. -/
def parseStringChars : List Char → Except String (List Char × List Char)
  | [] => Except.error "EOF while parsing a string"
  | '"' :: rest => Except.ok ([], rest)
  | '\\' :: _ => Except.error "escape sequences are not modelled"
  | c :: rest => do
      let p ← parseStringChars rest
      Except.ok (c :: p.1, p.2)

mutual

/-- One JSON value, fuel-bounded. Mirrors the grammar serde_json accepts on
the fragment used here (null, booleans, integers, plain strings, arrays,
objects); an empty input is the serde_json error "EOF while parsing a value". -/
def parseVal : Nat → List Char → Except String (Json × List Char)
  | 0, _ => Except.error "recursion limit exceeded"
  | Nat.succ fuel, input =>
    match skipWs input with
    | [] => Except.error "EOF while parsing a value"
    | 'n' :: 'u' :: 'l' :: 'l' :: rest => Except.ok (Json.null, rest)
    | 't' :: 'r' :: 'u' :: 'e' :: rest => Except.ok (Json.bool true, rest)
    | 'f' :: 'a' :: 'l' :: 's' :: 'e' :: rest => Except.ok (Json.bool false, rest)
    | '"' :: rest => do
        let p ← parseStringChars rest
        Except.ok (Json.str (String.mk p.1), p.2)
    | '-' :: rest =>
        let p := takeDigits rest
        if p.1.isEmpty then Except.error "invalid number"
        else Except.ok (Json.num (-(digitsToNat p.1 : Int)), p.2)
    | '[' :: rest => parseArrItems fuel rest []
    | '\x7b' :: rest => parseObjItems fuel rest []
    | c :: rest =>
        if c.isDigit then
          let p := takeDigits (c :: rest)
          Except.ok (Json.num (digitsToNat p.1 : Int), p.2)
        else Except.error "expected value"

/-- Items of a JSON array after the opening bracket. -/
def parseArrItems : Nat → List Char → List Json → Except String (Json × List Char)
  | 0, _, _ => Except.error "recursion limit exceeded"
  | Nat.succ fuel, input, acc =>
    match skipWs input with
    | ']' :: rest =>
        if acc.isEmpty then Except.ok (Json.arr acc, rest)
        else Except.error "expected value"
    | rest => do
        let p ← parseVal fuel rest
        match skipWs p.2 with
        | ',' :: rest2 => parseArrItems fuel rest2 (acc ++ [p.1])
        | ']' :: rest2 => Except.ok (Json.arr (acc ++ [p.1]), rest2)
        | _ => Except.error "expected comma or end of array"

/-- Items of a JSON object after the opening brace. -/
def parseObjItems : Nat → List Char → List (String × Json) → Except String (Json × List Char)
  | 0, _, _ => Except.error "recursion limit exceeded"
  | Nat.succ fuel, input, acc =>
    match skipWs input with
    | '\x7d' :: rest =>
        if acc.isEmpty then Except.ok (Json.obj acc, rest)
        else Except.error "expected key"
    | '"' :: rest => do
        let k ← parseStringChars rest
        match skipWs k.2 with
        | ':' :: rest2 => do
            let p ← parseVal fuel rest2
            match skipWs p.2 with
            | ',' :: rest3 => parseObjItems fuel rest3 (acc ++ [(String.mk k.1, p.1)])
            | '\x7d' :: rest3 => Except.ok (Json.obj (acc ++ [(String.mk k.1, p.1)]), rest3)
            | _ => Except.error "expected comma or end of object"
        | _ => Except.error "expected colon"
    | _ => Except.error "key must be a string"

end

/-- Model of the text-level front end of `serde_json::from_str`: parse the
body text into a `Json` value, requiring the whole input to be consumed.
An empty body is a parse error, exactly as in serde_json. -/
def jsonFromStr (s : String) : Except String Json := do
  let p ← parseVal (s.length + 1) s.data
  match skipWs p.2 with
  | [] => Except.ok p.1
  | _ => Except.error "trailing characters"

/-- First-occurrence lookup of a field in a JSON object, as serde's map
visitor sees it (the bodies handled here never carry duplicate keys). -/
def lookupField : List (String × Json) → String → Option Json
  | [], _ => none
  | (k, v) :: rest, key => if k = key then some v else lookupField rest key

/-- serde deserialization of `bool`. -/
def asBool : Json → Except String Bool
  | Json.bool b => Except.ok b
  | _ => Except.error "invalid type: expected a boolean"

/-- serde deserialization of `i64`. -/
def asInt : Json → Except String Int
  | Json.num n => Except.ok n
  | _ => Except.error "invalid type: expected an integer"

/-- serde deserialization of `String`. -/
def asString : Json → Except String String
  | Json.str s => Except.ok s
  | _ => Except.error "invalid type: expected a string"

/-- serde deserialization of `Vec<T>` from an element deserializer. -/
def asVec {α : Type} (f : Json → Except String α) : Json → Except String (List α)
  | Json.arr xs => xs.mapM f
  | _ => Except.error "invalid type: expected a sequence"

/-- serde deserialization of `Option<T>`: `null` is `None`, anything else
deserializes through `T` into `Some`. -/
def asOpt {α : Type} (f : Json → Except String α) : Json → Except String (Option α)
  | Json.null => Except.ok none
  | j => (f j).map some

/-- A required struct field (serde derive without `#[serde(default)]`):
missing is an error. -/
def fieldR {α : Type} (fs : List (String × Json)) (key : String)
    (f : Json → Except String α) : Except String α :=
  match lookupField fs key with
  | none => Except.error ("missing field " ++ key)
  | some j => f j

/-- A defaulted struct field (`#[serde(default)]` on the struct): missing
falls back to the field type's default. -/
def fieldD {α : Type} (fs : List (String × Json)) (key : String) (dflt : α)
    (f : Json → Except String α) : Except String α :=
  match lookupField fs key with
  | none => Except.ok dflt
  | some j => f j

/-- serde serialization of `Option<T>` without `skip_serializing_if`:
`None` serializes as JSON `null`. -/
def optJson {α : Type} (enc : α → Json) : Option α → Json
  | none => Json.null
  | some x => enc x

/-- Rust `Display` of `bool`, as `to_string()` renders it into query values. -/
def boolStr (b : Bool) : String := if b then "true" else "false"

/-- Rust `Display` of `i64`/`i32` (decimal, minus sign for negatives), as
`to_string()` renders it into query values. -/
def intStr (n : Int) : String := toString n

/-- The contribution of one optional field to a hand-written
`query_pairs_mut` append chain: `if let Some(x) = &self.f {
params.append_pair(k, ...) }` appends one pair when the field is present and
nothing otherwise. -/
def qopt {α : Type} (k : String) (f : α → String) : Option α → List (String × String)
  | none => []
  | some x => [(k, f x)]

/-- The contribution of one optional field to a serde-serialized JSON body
when the field carries `#[serde(skip_serializing_if = "Option::is_none")]`:
present fields emit one key, absent fields emit nothing. -/
def optEntry {α : Type} (k : String) (enc : α → Json) : Option α → List (String × Json)
  | none => []
  | some x => [(k, enc x)]

/-- Object format of a repository (src/src/lib.rs lines 73-80, identical in
src/src/model/repos.rs); serde renames the variants to "sha1"/"sha256". -/
inductive ObjectFormatName : Type where
  | SHA1
  | SHA256
  deriving DecidableEq

/-- Rust `Default` of `ObjectFormatName` (the `#[default]` variant). -/
def ObjectFormatName.default : ObjectFormatName := ObjectFormatName.SHA1

/-- serde serialization of `ObjectFormatName`. -/
def ObjectFormatName.toJson : ObjectFormatName → Json
  | ObjectFormatName.SHA1 => Json.str "sha1"
  | ObjectFormatName.SHA256 => Json.str "sha256"

/-- serde deserialization of `ObjectFormatName`. -/
def ObjectFormatName.fromJson : Json → Except String ObjectFormatName
  | Json.str "sha1" => Except.ok ObjectFormatName.SHA1
  | Json.str "sha256" => Except.ok ObjectFormatName.SHA256
  | _ => Except.error "unknown variant of ObjectFormatName"

/-- Gitea user (src/src/lib.rs lines 247-293; src/src/model/user.rs defines
the struct with the identical field list). The struct carries
`#[serde(default)]`, so on deserialization every missing field falls back to
its type's default. -/
structure User : Type where
  active : Bool
  avatar_url : String
  created : String
  description : String
  email : String
  followers_count : Int
  following_count : Int
  full_name : String
  id : Int
  is_admin : Bool
  language : String
  last_login : String
  location : String
  login : String
  login_name : String
  prohibit_login : Bool
  pronouns : String
  restricted : Bool
  starred_repos_count : Int
  visibility : String
  website : String
  deriving DecidableEq

/-- Rust `derive(Default)` for `User`: every field defaults. -/
def User.default : User :=
  { active := false, avatar_url := "", created := "", description := "", email := ""
  , followers_count := 0, following_count := 0, full_name := "", id := 0
  , is_admin := false, language := "", last_login := "", location := "", login := ""
  , login_name := "", prohibit_login := false, pronouns := "", restricted := false
  , starred_repos_count := 0, visibility := "", website := "" }

/-- serde serialization of `User` (fields in declaration order). -/
def User.toJson (u : User) : Json :=
  Json.obj
    [ ("active", Json.bool u.active)
    , ("avatar_url", Json.str u.avatar_url)
    , ("created", Json.str u.created)
    , ("description", Json.str u.description)
    , ("email", Json.str u.email)
    , ("followers_count", Json.num u.followers_count)
    , ("following_count", Json.num u.following_count)
    , ("full_name", Json.str u.full_name)
    , ("id", Json.num u.id)
    , ("is_admin", Json.bool u.is_admin)
    , ("language", Json.str u.language)
    , ("last_login", Json.str u.last_login)
    , ("location", Json.str u.location)
    , ("login", Json.str u.login)
    , ("login_name", Json.str u.login_name)
    , ("prohibit_login", Json.bool u.prohibit_login)
    , ("pronouns", Json.str u.pronouns)
    , ("restricted", Json.bool u.restricted)
    , ("starred_repos_count", Json.num u.starred_repos_count)
    , ("visibility", Json.str u.visibility)
    , ("website", Json.str u.website) ]

/-- serde deserialization of `User` (struct-level `#[serde(default)]`). -/
def User.fromJson : Json → Except String User
  | Json.obj fs => do
      let active ← fieldD fs "active" false asBool
      let avatar_url ← fieldD fs "avatar_url" "" asString
      let created ← fieldD fs "created" "" asString
      let description ← fieldD fs "description" "" asString
      let email ← fieldD fs "email" "" asString
      let followers_count ← fieldD fs "followers_count" 0 asInt
      let following_count ← fieldD fs "following_count" 0 asInt
      let full_name ← fieldD fs "full_name" "" asString
      let id ← fieldD fs "id" 0 asInt
      let is_admin ← fieldD fs "is_admin" false asBool
      let language ← fieldD fs "language" "" asString
      let last_login ← fieldD fs "last_login" "" asString
      let location ← fieldD fs "location" "" asString
      let login ← fieldD fs "login" "" asString
      let login_name ← fieldD fs "login_name" "" asString
      let prohibit_login ← fieldD fs "prohibit_login" false asBool
      let pronouns ← fieldD fs "pronouns" "" asString
      let restricted ← fieldD fs "restricted" false asBool
      let starred_repos_count ← fieldD fs "starred_repos_count" 0 asInt
      let visibility ← fieldD fs "visibility" "" asString
      let website ← fieldD fs "website" "" asString
      Except.ok
        { active := active, avatar_url := avatar_url, created := created
        , description := description, email := email
        , followers_count := followers_count, following_count := following_count
        , full_name := full_name, id := id, is_admin := is_admin
        , language := language, last_login := last_login, location := location
        , login := login, login_name := login_name, prohibit_login := prohibit_login
        , pronouns := pronouns, restricted := restricted
        , starred_repos_count := starred_repos_count, visibility := visibility
        , website := website }
  | _ => Except.error "invalid type: expected struct User"

/-- Deserializing a serialized `User` restores it exactly. -/
theorem user_fromJson_toJson (u : User) : User.fromJson (User.toJson u) = Except.ok u := rfl

/-- Deserializing a serialized `ObjectFormatName` restores it. -/
theorem objectFormatName_fromJson_toJson (x : ObjectFormatName) :
    ObjectFormatName.fromJson (ObjectFormatName.toJson x) = Except.ok x := by
  cases x <;> rfl

/-- Gitea repository (src/src/lib.rs lines 298-355), with struct-level
`#[serde(default)]`. The field `private` is written `«private»` because
`private` is a Lean keyword. -/
structure Repository : Type where
  allow_fast_forward_only_merge : Bool
  allow_merge_commits : Bool
  allow_rebase : Bool
  allow_rebase_explicit : Bool
  allow_rebase_update : Bool
  allow_squash_merge : Bool
  archived : Bool
  archived_at : String
  avatar_url : String
  clone_url : String
  created_at : String
  default_allow_maintainer_edit : Bool
  default_branch : String
  default_delete_branch_after_merge : Bool
  default_merge_style : String
  description : String
  empty : Bool
  fork : Bool
  forks_count : Int
  full_name : String
  has_actions : Bool
  has_issues : Bool
  has_packages : Bool
  has_projects : Bool
  has_pull_requests : Bool
  has_releases : Bool
  has_wiki : Bool
  html_url : String
  id : Int
  ignore_whitespace_conflicts : Bool
  internal : Bool
  language : String
  languages_url : String
  link : String
  mirror : Bool
  mirror_interval : String
  mirror_updated : String
  name : String
  object_format_name : ObjectFormatName
  open_issues_count : Int
  open_pr_counter : Int
  original_url : String
  owner : User
  «private» : Bool
  release_counter : Int
  size : Int
  ssh_url : String
  stars_count : Int
  template : Bool
  updated_at : String
  url : String
  watchers_count : Int
  website : String
  wiki_branch : String
  deriving DecidableEq

/-- serde serialization of `Repository` (fields in declaration order). -/
def Repository.toJson (r : Repository) : Json :=
  Json.obj
    [ ("allow_fast_forward_only_merge", Json.bool r.allow_fast_forward_only_merge)
    , ("allow_merge_commits", Json.bool r.allow_merge_commits)
    , ("allow_rebase", Json.bool r.allow_rebase)
    , ("allow_rebase_explicit", Json.bool r.allow_rebase_explicit)
    , ("allow_rebase_update", Json.bool r.allow_rebase_update)
    , ("allow_squash_merge", Json.bool r.allow_squash_merge)
    , ("archived", Json.bool r.archived)
    , ("archived_at", Json.str r.archived_at)
    , ("avatar_url", Json.str r.avatar_url)
    , ("clone_url", Json.str r.clone_url)
    , ("created_at", Json.str r.created_at)
    , ("default_allow_maintainer_edit", Json.bool r.default_allow_maintainer_edit)
    , ("default_branch", Json.str r.default_branch)
    , ("default_delete_branch_after_merge", Json.bool r.default_delete_branch_after_merge)
    , ("default_merge_style", Json.str r.default_merge_style)
    , ("description", Json.str r.description)
    , ("empty", Json.bool r.empty)
    , ("fork", Json.bool r.fork)
    , ("forks_count", Json.num r.forks_count)
    , ("full_name", Json.str r.full_name)
    , ("has_actions", Json.bool r.has_actions)
    , ("has_issues", Json.bool r.has_issues)
    , ("has_packages", Json.bool r.has_packages)
    , ("has_projects", Json.bool r.has_projects)
    , ("has_pull_requests", Json.bool r.has_pull_requests)
    , ("has_releases", Json.bool r.has_releases)
    , ("has_wiki", Json.bool r.has_wiki)
    , ("html_url", Json.str r.html_url)
    , ("id", Json.num r.id)
    , ("ignore_whitespace_conflicts", Json.bool r.ignore_whitespace_conflicts)
    , ("internal", Json.bool r.internal)
    , ("language", Json.str r.language)
    , ("languages_url", Json.str r.languages_url)
    , ("link", Json.str r.link)
    , ("mirror", Json.bool r.mirror)
    , ("mirror_interval", Json.str r.mirror_interval)
    , ("mirror_updated", Json.str r.mirror_updated)
    , ("name", Json.str r.name)
    , ("object_format_name", ObjectFormatName.toJson r.object_format_name)
    , ("open_issues_count", Json.num r.open_issues_count)
    , ("open_pr_counter", Json.num r.open_pr_counter)
    , ("original_url", Json.str r.original_url)
    , ("owner", User.toJson r.owner)
    , ("private", Json.bool r.«private»)
    , ("release_counter", Json.num r.release_counter)
    , ("size", Json.num r.size)
    , ("ssh_url", Json.str r.ssh_url)
    , ("stars_count", Json.num r.stars_count)
    , ("template", Json.bool r.template)
    , ("updated_at", Json.str r.updated_at)
    , ("url", Json.str r.url)
    , ("watchers_count", Json.num r.watchers_count)
    , ("website", Json.str r.website)
    , ("wiki_branch", Json.str r.wiki_branch) ]

/-- serde deserialization of `Repository` (struct-level `#[serde(default)]`). -/
def Repository.fromJson : Json → Except String Repository
  | Json.obj fs => do
      let allow_fast_forward_only_merge ← fieldD fs "allow_fast_forward_only_merge" false asBool
      let allow_merge_commits ← fieldD fs "allow_merge_commits" false asBool
      let allow_rebase ← fieldD fs "allow_rebase" false asBool
      let allow_rebase_explicit ← fieldD fs "allow_rebase_explicit" false asBool
      let allow_rebase_update ← fieldD fs "allow_rebase_update" false asBool
      let allow_squash_merge ← fieldD fs "allow_squash_merge" false asBool
      let archived ← fieldD fs "archived" false asBool
      let archived_at ← fieldD fs "archived_at" "" asString
      let avatar_url ← fieldD fs "avatar_url" "" asString
      let clone_url ← fieldD fs "clone_url" "" asString
      let created_at ← fieldD fs "created_at" "" asString
      let default_allow_maintainer_edit ← fieldD fs "default_allow_maintainer_edit" false asBool
      let default_branch ← fieldD fs "default_branch" "" asString
      let default_delete_branch_after_merge ← fieldD fs "default_delete_branch_after_merge" false asBool
      let default_merge_style ← fieldD fs "default_merge_style" "" asString
      let description ← fieldD fs "description" "" asString
      let empty ← fieldD fs "empty" false asBool
      let fork ← fieldD fs "fork" false asBool
      let forks_count ← fieldD fs "forks_count" 0 asInt
      let full_name ← fieldD fs "full_name" "" asString
      let has_actions ← fieldD fs "has_actions" false asBool
      let has_issues ← fieldD fs "has_issues" false asBool
      let has_packages ← fieldD fs "has_packages" false asBool
      let has_projects ← fieldD fs "has_projects" false asBool
      let has_pull_requests ← fieldD fs "has_pull_requests" false asBool
      let has_releases ← fieldD fs "has_releases" false asBool
      let has_wiki ← fieldD fs "has_wiki" false asBool
      let html_url ← fieldD fs "html_url" "" asString
      let id ← fieldD fs "id" 0 asInt
      let ignore_whitespace_conflicts ← fieldD fs "ignore_whitespace_conflicts" false asBool
      let internal ← fieldD fs "internal" false asBool
      let language ← fieldD fs "language" "" asString
      let languages_url ← fieldD fs "languages_url" "" asString
      let link ← fieldD fs "link" "" asString
      let mirror ← fieldD fs "mirror" false asBool
      let mirror_interval ← fieldD fs "mirror_interval" "" asString
      let mirror_updated ← fieldD fs "mirror_updated" "" asString
      let name ← fieldD fs "name" "" asString
      let object_format_name ← fieldD fs "object_format_name" ObjectFormatName.default ObjectFormatName.fromJson
      let open_issues_count ← fieldD fs "open_issues_count" 0 asInt
      let open_pr_counter ← fieldD fs "open_pr_counter" 0 asInt
      let original_url ← fieldD fs "original_url" "" asString
      let owner ← fieldD fs "owner" User.default User.fromJson
      let priv ← fieldD fs "private" false asBool
      let release_counter ← fieldD fs "release_counter" 0 asInt
      let size ← fieldD fs "size" 0 asInt
      let ssh_url ← fieldD fs "ssh_url" "" asString
      let stars_count ← fieldD fs "stars_count" 0 asInt
      let template ← fieldD fs "template" false asBool
      let updated_at ← fieldD fs "updated_at" "" asString
      let url ← fieldD fs "url" "" asString
      let watchers_count ← fieldD fs "watchers_count" 0 asInt
      let website ← fieldD fs "website" "" asString
      let wiki_branch ← fieldD fs "wiki_branch" "" asString
      Except.ok
        { allow_fast_forward_only_merge := allow_fast_forward_only_merge
        , allow_merge_commits := allow_merge_commits
        , allow_rebase := allow_rebase
        , allow_rebase_explicit := allow_rebase_explicit
        , allow_rebase_update := allow_rebase_update
        , allow_squash_merge := allow_squash_merge
        , archived := archived
        , archived_at := archived_at
        , avatar_url := avatar_url
        , clone_url := clone_url
        , created_at := created_at
        , default_allow_maintainer_edit := default_allow_maintainer_edit
        , default_branch := default_branch
        , default_delete_branch_after_merge := default_delete_branch_after_merge
        , default_merge_style := default_merge_style
        , description := description
        , empty := empty
        , fork := fork
        , forks_count := forks_count
        , full_name := full_name
        , has_actions := has_actions
        , has_issues := has_issues
        , has_packages := has_packages
        , has_projects := has_projects
        , has_pull_requests := has_pull_requests
        , has_releases := has_releases
        , has_wiki := has_wiki
        , html_url := html_url
        , id := id
        , ignore_whitespace_conflicts := ignore_whitespace_conflicts
        , internal := internal
        , language := language
        , languages_url := languages_url
        , link := link
        , mirror := mirror
        , mirror_interval := mirror_interval
        , mirror_updated := mirror_updated
        , name := name
        , object_format_name := object_format_name
        , open_issues_count := open_issues_count
        , open_pr_counter := open_pr_counter
        , original_url := original_url
        , owner := owner
        , «private» := priv
        , release_counter := release_counter
        , size := size
        , ssh_url := ssh_url
        , stars_count := stars_count
        , template := template
        , updated_at := updated_at
        , url := url
        , watchers_count := watchers_count
        , website := website
        , wiki_branch := wiki_branch }
  | _ => Except.error "invalid type: expected struct Repository"

/-- Deserializing a serialized `Repository` restores it exactly. -/
theorem repository_fromJson_toJson (r : Repository) :
    Repository.fromJson (Repository.toJson r) = Except.ok r := by
  obtain ⟨_, _, _, _, _, _, _, _, _, _, _, _, _, _, _, _, _, _, _, _, _, _, _, _, _, _,
    _, _, _, _, _, _, _, _, _, _, _, _, ofn, _, _, _, _, _, _, _, _, _, _, _, _, _, _, _⟩ := r
  cases ofn <;> rfl

/-- Attachment on issues/PRs/releases (src/src/issue.rs lines 8-18),
struct-level `#[serde(default)]`. -/
structure Attachment : Type where
  browser_download_url : String
  created_at : String
  download_count : Int
  id : Int
  name : String
  size : Int
  uuid : String
  deriving DecidableEq

/-- serde serialization of `Attachment`. -/
def Attachment.toJson (a : Attachment) : Json :=
  Json.obj
    [ ("browser_download_url", Json.str a.browser_download_url)
    , ("created_at", Json.str a.created_at)
    , ("download_count", Json.num a.download_count)
    , ("id", Json.num a.id)
    , ("name", Json.str a.name)
    , ("size", Json.num a.size)
    , ("uuid", Json.str a.uuid) ]

/-- serde deserialization of `Attachment` (struct-level `#[serde(default)]`). -/
def Attachment.fromJson : Json → Except String Attachment
  | Json.obj fs => do
      let browser_download_url ← fieldD fs "browser_download_url" "" asString
      let created_at ← fieldD fs "created_at" "" asString
      let download_count ← fieldD fs "download_count" 0 asInt
      let id ← fieldD fs "id" 0 asInt
      let name ← fieldD fs "name" "" asString
      let size ← fieldD fs "size" 0 asInt
      let uuid ← fieldD fs "uuid" "" asString
      Except.ok
        { browser_download_url := browser_download_url, created_at := created_at
        , download_count := download_count, id := id, name := name, size := size
        , uuid := uuid }
  | _ => Except.error "invalid type: expected struct Attachment"

/-- Deserializing a serialized `Attachment` restores it exactly. -/
theorem attachment_fromJson_toJson (a : Attachment) :
    Attachment.fromJson (Attachment.toJson a) = Except.ok a := rfl

/-- Label on issues/PRs (src/src/issue.rs lines 22-32), struct-level
`#[serde(default)]`. -/
structure Label : Type where
  color : String
  description : String
  exclusive : Bool
  id : Int
  is_archived : Bool
  name : String
  url : String
  deriving DecidableEq

/-- serde serialization of `Label`. -/
def Label.toJson (l : Label) : Json :=
  Json.obj
    [ ("color", Json.str l.color)
    , ("description", Json.str l.description)
    , ("exclusive", Json.bool l.exclusive)
    , ("id", Json.num l.id)
    , ("is_archived", Json.bool l.is_archived)
    , ("name", Json.str l.name)
    , ("url", Json.str l.url) ]

/-- serde deserialization of `Label` (struct-level `#[serde(default)]`). -/
def Label.fromJson : Json → Except String Label
  | Json.obj fs => do
      let color ← fieldD fs "color" "" asString
      let description ← fieldD fs "description" "" asString
      let exclusive ← fieldD fs "exclusive" false asBool
      let id ← fieldD fs "id" 0 asInt
      let is_archived ← fieldD fs "is_archived" false asBool
      let name ← fieldD fs "name" "" asString
      let url ← fieldD fs "url" "" asString
      Except.ok
        { color := color, description := description, exclusive := exclusive
        , id := id, is_archived := is_archived, name := name, url := url }
  | _ => Except.error "invalid type: expected struct Label"

/-- Deserializing a serialized `Label` restores it exactly. -/
theorem label_fromJson_toJson (l : Label) :
    Label.fromJson (Label.toJson l) = Except.ok l := rfl

/-- Issue state (src/src/issue.rs lines 34-44): serde renames the variants to
"open"/"closed"/"all"; `All` is the Rust default. -/
inductive State : Type where
  | Open
  | Closed
  | All
  deriving DecidableEq

/-- Rust `Default` of `State` (the `#[default]` variant). -/
def State.default : State := State.All

/-- serde serialization of `State`. -/
def State.toJson : State → Json
  | State.Open => Json.str "open"
  | State.Closed => Json.str "closed"
  | State.All => Json.str "all"

/-- serde deserialization of `State`. -/
def State.fromJson : Json → Except String State
  | Json.str "open" => Except.ok State.Open
  | Json.str "closed" => Except.ok State.Closed
  | Json.str "all" => Except.ok State.All
  | _ => Except.error "unknown variant of State"

/-- Deserializing a serialized `State` restores it. -/
theorem state_fromJson_toJson (s : State) :
    State.fromJson (State.toJson s) = Except.ok s := by
  cases s <;> rfl

/-- `Display` of `State` (src/src/issue.rs lines 45-53), used when the state
is rendered into a query value. -/
def State.toStr : State → String
  | State.Open => "open"
  | State.Closed => "closed"
  | State.All => "all"

/-- Issue (src/src/issue.rs lines 55-81), struct-level `#[serde(default)]`;
`r#ref` serializes under the wire key "ref". -/
structure Issue : Type where
  assets : List Attachment
  assignee : Option User
  assignees : Option (List User)
  body : Option String
  closed_at : Option String
  comments : Int
  created_at : String
  due_date : Option String
  html_url : String
  id : Int
  is_locked : Bool
  labels : List Label
  number : Int
  original_author : String
  original_author_id : Int
  pin_order : Int
  ref : String
  state : State
  updated_at : String
  title : String
  url : String
  user : User
  deriving DecidableEq

/-- serde serialization of `Issue` (fields in declaration order; `None`
options serialize as `null` since no `skip_serializing_if` is declared). -/
def Issue.toJson (i : Issue) : Json :=
  Json.obj
    [ ("assets", Json.arr (i.assets.map Attachment.toJson))
    , ("assignee", optJson User.toJson i.assignee)
    , ("assignees", optJson (fun us => Json.arr (us.map User.toJson)) i.assignees)
    , ("body", optJson Json.str i.body)
    , ("closed_at", optJson Json.str i.closed_at)
    , ("comments", Json.num i.comments)
    , ("created_at", Json.str i.created_at)
    , ("due_date", optJson Json.str i.due_date)
    , ("html_url", Json.str i.html_url)
    , ("id", Json.num i.id)
    , ("is_locked", Json.bool i.is_locked)
    , ("labels", Json.arr (i.labels.map Label.toJson))
    , ("number", Json.num i.number)
    , ("original_author", Json.str i.original_author)
    , ("original_author_id", Json.num i.original_author_id)
    , ("pin_order", Json.num i.pin_order)
    , ("ref", Json.str i.ref)
    , ("state", State.toJson i.state)
    , ("updated_at", Json.str i.updated_at)
    , ("title", Json.str i.title)
    , ("url", Json.str i.url)
    , ("user", User.toJson i.user) ]

/-- serde deserialization of `Issue` (struct-level `#[serde(default)]`). -/
def Issue.fromJson : Json → Except String Issue
  | Json.obj fs => do
      let assets ← fieldD fs "assets" [] (asVec Attachment.fromJson)
      let assignee ← fieldD fs "assignee" none (asOpt User.fromJson)
      let assignees ← fieldD fs "assignees" none (asOpt (asVec User.fromJson))
      let body ← fieldD fs "body" none (asOpt asString)
      let closed_at ← fieldD fs "closed_at" none (asOpt asString)
      let comments ← fieldD fs "comments" 0 asInt
      let created_at ← fieldD fs "created_at" "" asString
      let due_date ← fieldD fs "due_date" none (asOpt asString)
      let html_url ← fieldD fs "html_url" "" asString
      let id ← fieldD fs "id" 0 asInt
      let is_locked ← fieldD fs "is_locked" false asBool
      let labels ← fieldD fs "labels" [] (asVec Label.fromJson)
      let number ← fieldD fs "number" 0 asInt
      let original_author ← fieldD fs "original_author" "" asString
      let original_author_id ← fieldD fs "original_author_id" 0 asInt
      let pin_order ← fieldD fs "pin_order" 0 asInt
      let ref ← fieldD fs "ref" "" asString
      let state ← fieldD fs "state" State.default State.fromJson
      let updated_at ← fieldD fs "updated_at" "" asString
      let title ← fieldD fs "title" "" asString
      let url ← fieldD fs "url" "" asString
      let user ← fieldD fs "user" User.default User.fromJson
      Except.ok
        { assets := assets, assignee := assignee, assignees := assignees
        , body := body, closed_at := closed_at, comments := comments
        , created_at := created_at, due_date := due_date, html_url := html_url
        , id := id, is_locked := is_locked, labels := labels, number := number
        , original_author := original_author, original_author_id := original_author_id
        , pin_order := pin_order, ref := ref, state := state
        , updated_at := updated_at, title := title, url := url, user := user }
  | _ => Except.error "invalid type: expected struct Issue"

/-- Accumulator form of the `Vec<T>` round-trip: the monadic map loop over
serialized elements succeeds and returns the original elements. -/
theorem mapM_loop_ok {α : Type} {f : Json → Except String α} {g : α → Json}
    (h : ∀ x, f (g x) = Except.ok x) (xs : List α) :
    ∀ acc : List α, List.mapM.loop f (xs.map g) acc = Except.ok (acc.reverse ++ xs) := by
  induction xs with
  | nil => intro acc; simp [List.mapM.loop, Pure.pure, Except.pure]
  | cons x xs ih =>
      intro acc
      simp [List.mapM.loop, h, Bind.bind, Except.bind, ih (x :: acc)]

/-- An element-wise inverse deserializer lifts to `Vec<T>` (serde decodes a
sequence element by element). -/
theorem mapM_map_ok {α : Type} {f : Json → Except String α} {g : α → Json}
    (h : ∀ x, f (g x) = Except.ok x) (xs : List α) :
    (xs.map g).mapM f = Except.ok xs := by
  have h2 := mapM_loop_ok h xs []
  rw [List.reverse_nil, List.nil_append] at h2
  exact h2

/-- `asVec` round-trip from the element round-trip. -/
theorem asVec_map {α : Type} {f : Json → Except String α} {g : α → Json}
    (h : ∀ x, f (g x) = Except.ok x) (xs : List α) :
    asVec f (Json.arr (xs.map g)) = Except.ok xs := by
  show (xs.map g).mapM f = Except.ok xs
  exact mapM_map_ok h xs

/-- `asOpt` on a non-null value defers to the inner deserializer. -/
theorem asOpt_not_null {α : Type} {dec : Json → Except String α} {j : Json}
    (h : j ≠ Json.null) : asOpt dec j = (dec j).map some := by
  cases j <;> first | exact absurd rfl h | rfl

/-- `asOpt` round-trip over `optJson` from the inner round-trip, provided the
inner encoder never emits `null` (true of all encoders used here). -/
theorem asOpt_optJson {α : Type} {dec : Json → Except String α} {enc : α → Json}
    (h : ∀ x, dec (enc x) = Except.ok x) (hn : ∀ x, enc x ≠ Json.null)
    (v : Option α) : asOpt dec (optJson enc v) = Except.ok v := by
  cases v with
  | none => rfl
  | some x =>
      show asOpt dec (enc x) = Except.ok (some x)
      rw [asOpt_not_null (hn x), h x]
      rfl

/-- Deserializing a serialized `Issue` restores it exactly. -/
theorem issue_fromJson_toJson (i : Issue) :
    Issue.fromJson (Issue.toJson i) = Except.ok i := by
  have hassets := asVec_map attachment_fromJson_toJson i.assets
  have hlabels := asVec_map label_fromJson_toJson i.labels
  have hassignee := asOpt_optJson user_fromJson_toJson
    (fun u => by simp [User.toJson]) i.assignee
  have hassignees := asOpt_optJson (asVec_map user_fromJson_toJson)
    (fun us => by simp) i.assignees
  have hstr : ∀ s : String, asString (Json.str s) = Except.ok s := fun _ => rfl
  have hnn : ∀ s : String, Json.str s ≠ Json.null := fun s => by simp
  have hbody := asOpt_optJson hstr hnn i.body
  have hclosed := asOpt_optJson hstr hnn i.closed_at
  have hdue := asOpt_optJson hstr hnn i.due_date
  have hstate := state_fromJson_toJson i.state
  simp only [Issue.fromJson, Issue.toJson, fieldD, lookupField]
  simp +decide [hassets, hlabels, hassignee, hassignees, hbody, hclosed, hdue, hstate,
    Bind.bind, Except.bind, user_fromJson_toJson, asInt, asString, asBool]

/-- External issue tracker settings (src/src/model/repos.rs lines 197-209),
struct-level `#[serde(default)]`. -/
structure ExternalTracker : Type where
  external_tracker_format : String
  external_tracker_regexp_pattern : String
  external_tracker_style : String
  external_tracker_url : String
  deriving DecidableEq

/-- serde serialization of `ExternalTracker`. -/
def ExternalTracker.toJson (t : ExternalTracker) : Json :=
  Json.obj
    [ ("external_tracker_format", Json.str t.external_tracker_format)
    , ("external_tracker_regexp_pattern", Json.str t.external_tracker_regexp_pattern)
    , ("external_tracker_style", Json.str t.external_tracker_style)
    , ("external_tracker_url", Json.str t.external_tracker_url) ]

/-- serde deserialization of `ExternalTracker`. -/
def ExternalTracker.fromJson : Json → Except String ExternalTracker
  | Json.obj fs => do
      let external_tracker_format ← fieldD fs "external_tracker_format" "" asString
      let external_tracker_regexp_pattern ← fieldD fs "external_tracker_regexp_pattern" "" asString
      let external_tracker_style ← fieldD fs "external_tracker_style" "" asString
      let external_tracker_url ← fieldD fs "external_tracker_url" "" asString
      Except.ok
        { external_tracker_format := external_tracker_format
        , external_tracker_regexp_pattern := external_tracker_regexp_pattern
        , external_tracker_style := external_tracker_style
        , external_tracker_url := external_tracker_url }
  | _ => Except.error "invalid type: expected struct ExternalTracker"

/-- Rust `derive(Default)` for `ExternalTracker`. -/
def ExternalTracker.default : ExternalTracker :=
  { external_tracker_format := "", external_tracker_regexp_pattern := ""
  , external_tracker_style := "", external_tracker_url := "" }

/-- External wiki settings (src/src/model/repos.rs lines 211-216),
struct-level `#[serde(default)]`. -/
structure ExternalWiki : Type where
  external_wiki_url : String
  deriving DecidableEq

/-- serde serialization of `ExternalWiki`. -/
def ExternalWiki.toJson (w : ExternalWiki) : Json :=
  Json.obj [("external_wiki_url", Json.str w.external_wiki_url)]

/-- serde deserialization of `ExternalWiki`. -/
def ExternalWiki.fromJson : Json → Except String ExternalWiki
  | Json.obj fs => do
      let external_wiki_url ← fieldD fs "external_wiki_url" "" asString
      Except.ok { external_wiki_url := external_wiki_url }
  | _ => Except.error "invalid type: expected struct ExternalWiki"

/-- Rust `derive(Default)` for `ExternalWiki`. -/
def ExternalWiki.default : ExternalWiki := { external_wiki_url := "" }

namespace Repos

/-- Gitea repository as defined in src/src/model/repos.rs lines 40-100: the
field list of the lib.rs `Repository` plus `external_tracker` and
`external_wiki`; struct-level `#[serde(default)]`. This is the element type
deserialized by the search-repositories endpoint. -/
structure Repository : Type where
  allow_fast_forward_only_merge : Bool
  allow_merge_commits : Bool
  allow_rebase : Bool
  allow_rebase_explicit : Bool
  allow_rebase_update : Bool
  allow_squash_merge : Bool
  archived : Bool
  archived_at : String
  avatar_url : String
  clone_url : String
  created_at : String
  default_allow_maintainer_edit : Bool
  default_branch : String
  default_delete_branch_after_merge : Bool
  default_merge_style : String
  description : String
  empty : Bool
  external_tracker : ExternalTracker
  external_wiki : ExternalWiki
  fork : Bool
  forks_count : Int
  full_name : String
  has_actions : Bool
  has_issues : Bool
  has_packages : Bool
  has_projects : Bool
  has_pull_requests : Bool
  has_releases : Bool
  has_wiki : Bool
  html_url : String
  id : Int
  ignore_whitespace_conflicts : Bool
  internal : Bool
  language : String
  languages_url : String
  link : String
  mirror : Bool
  mirror_interval : String
  mirror_updated : String
  name : String
  object_format_name : ObjectFormatName
  open_issues_count : Int
  open_pr_counter : Int
  original_url : String
  owner : User
  «private» : Bool
  release_counter : Int
  size : Int
  ssh_url : String
  stars_count : Int
  template : Bool
  updated_at : String
  url : String
  watchers_count : Int
  website : String
  wiki_branch : String
  deriving DecidableEq

/-- serde deserialization of the model-module `Repository` (struct-level
`#[serde(default)]`). -/
def Repository.fromJson : Json → Except String Repository
  | Json.obj fs => do
      let allow_fast_forward_only_merge ← fieldD fs "allow_fast_forward_only_merge" false asBool
      let allow_merge_commits ← fieldD fs "allow_merge_commits" false asBool
      let allow_rebase ← fieldD fs "allow_rebase" false asBool
      let allow_rebase_explicit ← fieldD fs "allow_rebase_explicit" false asBool
      let allow_rebase_update ← fieldD fs "allow_rebase_update" false asBool
      let allow_squash_merge ← fieldD fs "allow_squash_merge" false asBool
      let archived ← fieldD fs "archived" false asBool
      let archived_at ← fieldD fs "archived_at" "" asString
      let avatar_url ← fieldD fs "avatar_url" "" asString
      let clone_url ← fieldD fs "clone_url" "" asString
      let created_at ← fieldD fs "created_at" "" asString
      let default_allow_maintainer_edit ← fieldD fs "default_allow_maintainer_edit" false asBool
      let default_branch ← fieldD fs "default_branch" "" asString
      let default_delete_branch_after_merge ← fieldD fs "default_delete_branch_after_merge" false asBool
      let default_merge_style ← fieldD fs "default_merge_style" "" asString
      let description ← fieldD fs "description" "" asString
      let empty ← fieldD fs "empty" false asBool
      let external_tracker ← fieldD fs "external_tracker" ExternalTracker.default ExternalTracker.fromJson
      let external_wiki ← fieldD fs "external_wiki" ExternalWiki.default ExternalWiki.fromJson
      let fork ← fieldD fs "fork" false asBool
      let forks_count ← fieldD fs "forks_count" 0 asInt
      let full_name ← fieldD fs "full_name" "" asString
      let has_actions ← fieldD fs "has_actions" false asBool
      let has_issues ← fieldD fs "has_issues" false asBool
      let has_packages ← fieldD fs "has_packages" false asBool
      let has_projects ← fieldD fs "has_projects" false asBool
      let has_pull_requests ← fieldD fs "has_pull_requests" false asBool
      let has_releases ← fieldD fs "has_releases" false asBool
      let has_wiki ← fieldD fs "has_wiki" false asBool
      let html_url ← fieldD fs "html_url" "" asString
      let id ← fieldD fs "id" 0 asInt
      let ignore_whitespace_conflicts ← fieldD fs "ignore_whitespace_conflicts" false asBool
      let internal ← fieldD fs "internal" false asBool
      let language ← fieldD fs "language" "" asString
      let languages_url ← fieldD fs "languages_url" "" asString
      let link ← fieldD fs "link" "" asString
      let mirror ← fieldD fs "mirror" false asBool
      let mirror_interval ← fieldD fs "mirror_interval" "" asString
      let mirror_updated ← fieldD fs "mirror_updated" "" asString
      let name ← fieldD fs "name" "" asString
      let object_format_name ← fieldD fs "object_format_name" ObjectFormatName.default ObjectFormatName.fromJson
      let open_issues_count ← fieldD fs "open_issues_count" 0 asInt
      let open_pr_counter ← fieldD fs "open_pr_counter" 0 asInt
      let original_url ← fieldD fs "original_url" "" asString
      let owner ← fieldD fs "owner" User.default User.fromJson
      let priv ← fieldD fs "private" false asBool
      let release_counter ← fieldD fs "release_counter" 0 asInt
      let size ← fieldD fs "size" 0 asInt
      let ssh_url ← fieldD fs "ssh_url" "" asString
      let stars_count ← fieldD fs "stars_count" 0 asInt
      let template ← fieldD fs "template" false asBool
      let updated_at ← fieldD fs "updated_at" "" asString
      let url ← fieldD fs "url" "" asString
      let watchers_count ← fieldD fs "watchers_count" 0 asInt
      let website ← fieldD fs "website" "" asString
      let wiki_branch ← fieldD fs "wiki_branch" "" asString
      Except.ok
        { allow_fast_forward_only_merge := allow_fast_forward_only_merge
        , allow_merge_commits := allow_merge_commits
        , allow_rebase := allow_rebase
        , allow_rebase_explicit := allow_rebase_explicit
        , allow_rebase_update := allow_rebase_update
        , allow_squash_merge := allow_squash_merge
        , archived := archived
        , archived_at := archived_at
        , avatar_url := avatar_url
        , clone_url := clone_url
        , created_at := created_at
        , default_allow_maintainer_edit := default_allow_maintainer_edit
        , default_branch := default_branch
        , default_delete_branch_after_merge := default_delete_branch_after_merge
        , default_merge_style := default_merge_style
        , description := description
        , empty := empty
        , external_tracker := external_tracker
        , external_wiki := external_wiki
        , fork := fork
        , forks_count := forks_count
        , full_name := full_name
        , has_actions := has_actions
        , has_issues := has_issues
        , has_packages := has_packages
        , has_projects := has_projects
        , has_pull_requests := has_pull_requests
        , has_releases := has_releases
        , has_wiki := has_wiki
        , html_url := html_url
        , id := id
        , ignore_whitespace_conflicts := ignore_whitespace_conflicts
        , internal := internal
        , language := language
        , languages_url := languages_url
        , link := link
        , mirror := mirror
        , mirror_interval := mirror_interval
        , mirror_updated := mirror_updated
        , name := name
        , object_format_name := object_format_name
        , open_issues_count := open_issues_count
        , open_pr_counter := open_pr_counter
        , original_url := original_url
        , owner := owner
        , «private» := priv
        , release_counter := release_counter
        , size := size
        , ssh_url := ssh_url
        , stars_count := stars_count
        , template := template
        , updated_at := updated_at
        , url := url
        , watchers_count := watchers_count
        , website := website
        , wiki_branch := wiki_branch }
  | _ => Except.error "invalid type: expected struct Repository"

end Repos

/-- Issue comment (src/src/model/issues.rs lines 85-97). Note: unlike most
models, `Comment` has NO struct-level `#[serde(default)]`, so every field is
required on deserialization. The `Attachment` type in model/issues.rs is
field-for-field the one already defined above. -/
structure Comment : Type where
  assets : List Attachment
  body : String
  created_at : String
  html_url : String
  id : Int
  issue_url : String
  original_author : String
  original_author_id : Int
  pull_request_url : String
  updated_at : String
  user : User
  deriving DecidableEq

/-- serde deserialization of `Comment`: all fields required. -/
def Comment.fromJson : Json → Except String Comment
  | Json.obj fs => do
      let assets ← fieldR fs "assets" (asVec Attachment.fromJson)
      let body ← fieldR fs "body" asString
      let created_at ← fieldR fs "created_at" asString
      let html_url ← fieldR fs "html_url" asString
      let id ← fieldR fs "id" asInt
      let issue_url ← fieldR fs "issue_url" asString
      let original_author ← fieldR fs "original_author" asString
      let original_author_id ← fieldR fs "original_author_id" asInt
      let pull_request_url ← fieldR fs "pull_request_url" asString
      let updated_at ← fieldR fs "updated_at" asString
      let user ← fieldR fs "user" User.fromJson
      Except.ok
        { assets := assets, body := body, created_at := created_at
        , html_url := html_url, id := id, issue_url := issue_url
        , original_author := original_author, original_author_id := original_author_id
        , pull_request_url := pull_request_url, updated_at := updated_at, user := user }
  | _ => Except.error "invalid type: expected struct Comment"

/-- serde deserialization of the `Option<Comment>` return type of the
edit-comment endpoint, from the body text: `serde_json::from_str` parses the
text (an empty body fails here with "EOF while parsing a value"), then
`null` gives `None` and any other value must deserialize as a `Comment`. -/
def decodeOptionComment (s : String) : Except String (Option Comment) :=
  match jsonFromStr s with
  | Except.error e => Except.error e
  | Except.ok Json.null => Except.ok none
  | Except.ok j => (Comment.fromJson j).map some

/-- Builder of the edit-comment operation
(src/src/api/issues/comments/edit.rs lines 7-22): fixed path parts
`owner`/`repo`/`comment`, required body field `body`, optional `updated_at`. -/
structure EditCommentBuilder : Type where
  owner : String
  repo : String
  comment : Int
  body : String
  updated_at : Option String
  deriving DecidableEq

/-- `EditCommentBuilder::new` (edit.rs lines 25-37): `updated_at` starts
unset. -/
def EditCommentBuilder.new (owner repo : String) (comment : Int) (body : String) :
    EditCommentBuilder :=
  { owner := owner, repo := repo, comment := comment, body := body, updated_at := none }

/-- Response-handling path of `EditCommentBuilder::send` (edit.rs lines
44-54): PATCH the comment, pass the response through `make_request`, then
`parse_response` at target type `Option<Comment>`. `resp` is the simulated
response the transport returns for the request. -/
def EditCommentBuilder.send (_b : EditCommentBuilder) (resp : RawResponse) :
    Except TeatimeError (Option Comment) :=
  match Client.make_request resp with
  | Except.error e => Except.error e
  | Except.ok r => Client.parse_response decodeOptionComment r

/-- Builder of the organization membership check
(src/src/api/orgs/members.rs lines 22-26). -/
structure IsMemberBuilder : Type where
  org : String
  username : String
  deriving DecidableEq

/-- `IsMemberBuilder::send` (members.rs lines 59-74): GET the membership
URL; a transport success is `Ok(true)`, a transport error with status 404 is
reinterpreted as `Ok(false)`, and any other transport error propagates
unchanged. `resp` is the simulated response the transport returns. -/
def IsMemberBuilder.send (_b : IsMemberBuilder) (resp : RawResponse) :
    Except TeatimeError Bool :=
  match Client.make_request resp with
  | Except.ok _ => Except.ok true
  | Except.error e =>
      if e.status_code = 404 then Except.ok false else Except.error e

/-- Builder of the star check (src/src/api/user/starred.rs lines 27-31). -/
structure IsStarredBuilder : Type where
  owner : String
  repo : String
  deriving DecidableEq

/-- `IsStarredBuilder::send` (starred.rs lines 93-108): GET the star URL; a
transport success is `Ok(true)`, a transport error with status 404 is
reinterpreted as `Ok(false)`, and any other transport error propagates
unchanged. -/
def IsStarredBuilder.send (_b : IsStarredBuilder) (resp : RawResponse) :
    Except TeatimeError Bool :=
  match Client.make_request resp with
  | Except.ok _ => Except.ok true
  | Except.error e =>
      if e.status_code = 404 then Except.ok false else Except.error e

/-- The private envelope struct `Response { ok: bool, data: Vec<T> }`
declared inside `SearchRepositoriesBuilder::send` (src/src/api/search/repos.rs
lines 110-114) and `SearchUsersBuilder::send` (src/src/api/search/users.rs
lines 31-35); both fields are required (no `#[serde(default)]`). -/
structure SearchEnvelope (α : Type) : Type where
  ok : Bool
  data : List α

/-- serde deserialization of the search envelope from the body text; `elem`
is the element type's deserializer. -/
def decodeEnvelope {α : Type} (elem : Json → Except String α) (s : String) :
    Except String (SearchEnvelope α) :=
  match jsonFromStr s with
  | Except.error e => Except.error e
  | Except.ok (Json.obj fs) => do
      let okv ← fieldR fs "ok" asBool
      let d ← fieldR fs "data" (asVec elem)
      Except.ok { ok := okv, data := d }
  | Except.ok _ => Except.error "invalid type: expected struct Response"

/-- Response-handling path of `SearchRepositoriesBuilder::send`
(src/src/api/search/repos.rs lines 117-118): `make_request`, then
`parse_response` at the envelope type, then project out `.data`, dropping
the `ok` flag. -/
def SearchRepositoriesBuilder.send (resp : RawResponse) :
    Except TeatimeError (List Repos.Repository) :=
  match Client.make_request resp with
  | Except.error e => Except.error e
  | Except.ok r =>
      match Client.parse_response (decodeEnvelope Repos.Repository.fromJson) r with
      | Except.error e => Except.error e
      | Except.ok env => Except.ok env.data

/-- Response-handling path of `SearchUsersBuilder::send`
(src/src/api/search/users.rs lines 36-40): `make_request`, then
`parse_response` at the envelope type, then project out `.data`, dropping
the `ok` flag. -/
def SearchUsersBuilder.send (resp : RawResponse) :
    Except TeatimeError (List User) :=
  match Client.make_request resp with
  | Except.error e => Except.error e
  | Except.ok r =>
      match Client.parse_response (decodeEnvelope User.fromJson) r with
      | Except.error e => Except.error e
      | Except.ok env => Except.ok env.data

/-- Issue-or-pull filter (src/src/issue.rs lines 83-88 and
src/src/model/issues.rs): serde renames to "issues"/"pulls". -/
inductive IssueType : Type where
  | Issues
  | Pulls
  deriving DecidableEq

/-- `Display` of `IssueType`, used when it is rendered into a query value. -/
def IssueType.toStr : IssueType → String
  | IssueType.Issues => "issues"
  | IssueType.Pulls => "pulls"

/-- Rust `Vec<String>::join(",")`. -/
def joinComma (xs : List String) : String := String.intercalate "," xs

/-- Builder of the list-issues operation (src/src/api/issues/list.rs lines
7-41): fixed `owner`/`repo`, all other fields optional; `query` has wire
name "q" and `issue_type` has wire name "type". -/
structure ListIssuesBuilder : Type where
  owner : String
  repo : String
  state : Option State
  labels : Option (List String)
  query : Option String
  issue_type : Option IssueType
  milestone : Option String
  since : Option String
  before : Option String
  created_by : Option String
  assigned_by : Option String
  mentioned_by : Option String
  page : Option Int
  limit : Option Int
  deriving DecidableEq

/-- `ListIssuesBuilder::new` (list.rs lines 44-60): every optional field
starts unset. -/
def ListIssuesBuilder.new (owner repo : String) : ListIssuesBuilder :=
  { owner := owner, repo := repo, state := none, labels := none, query := none
  , issue_type := none, milestone := none, since := none, before := none
  , created_by := none, assigned_by := none, mentioned_by := none
  , page := none, limit := none }

/-- The query pairs appended by `ListIssuesBuilder::send` (list.rs lines
62-105): one `append_pair` per present field, in the written order; `labels`
is joined into one comma-separated value. -/
def ListIssuesBuilder.queryPairs (b : ListIssuesBuilder) : List (String × String) :=
  qopt "state" State.toStr b.state
    ++ qopt "labels" joinComma b.labels
    ++ qopt "q" (fun s => s) b.query
    ++ qopt "type" IssueType.toStr b.issue_type
    ++ qopt "milestone" (fun s => s) b.milestone
    ++ qopt "since" (fun s => s) b.since
    ++ qopt "before" (fun s => s) b.before
    ++ qopt "created_by" (fun s => s) b.created_by
    ++ qopt "assigned_by" (fun s => s) b.assigned_by
    ++ qopt "mentioned_by" (fun s => s) b.mentioned_by
    ++ qopt "page" intStr b.page
    ++ qopt "limit" intStr b.limit

/-- Builder of the search-issues operation (src/src/api/search/issues.rs
lines 10-53): every field optional; `labels` and `milestones` carry
`#[query_params(skip)]`; `query` renames to "q" and `issue_type` to "type". -/
structure SearchIssuesBuilder : Type where
  state : Option State
  labels : Option (List String)
  milestones : Option (List String)
  query : Option String
  priority_repo_id : Option Int
  issue_type : Option IssueType
  since : Option String
  before : Option String
  assigned : Option Bool
  created : Option Bool
  mentioned : Option Bool
  review_requested : Option Bool
  reviewed : Option Bool
  owner : Option String
  team : Option String
  page : Option Int
  limit : Option Int
  deriving DecidableEq

/-- `SearchIssuesBuilder::new` = `Default::default()` (issues.rs lines
56-58): every field unset. -/
def SearchIssuesBuilder.new : SearchIssuesBuilder :=
  { state := none, labels := none, milestones := none, query := none
  , priority_repo_id := none, issue_type := none, since := none, before := none
  , assigned := none, created := none, mentioned := none, review_requested := none
  , reviewed := none, owner := none, team := none, page := none, limit := none }

/-- The `append_query_params` method the `QueryParams` derive macro
(src/teatime-macros/src/lib.rs lines 20-43) generates for
`SearchIssuesBuilder`: for each non-skipped field in declaration order,
`if let Some(x) = &self.f { params.append_pair(wire_name, &x.to_string()) }`;
`labels` and `milestones` are skipped, `query` appends under "q" and
`issue_type` under "type". -/
def SearchIssuesBuilder.append_query_params (b : SearchIssuesBuilder) :
    List (String × String) :=
  qopt "state" State.toStr b.state
    ++ qopt "q" (fun s => s) b.query
    ++ qopt "priority_repo_id" intStr b.priority_repo_id
    ++ qopt "type" IssueType.toStr b.issue_type
    ++ qopt "since" (fun s => s) b.since
    ++ qopt "before" (fun s => s) b.before
    ++ qopt "assigned" boolStr b.assigned
    ++ qopt "created" boolStr b.created
    ++ qopt "mentioned" boolStr b.mentioned
    ++ qopt "review_requested" boolStr b.review_requested
    ++ qopt "reviewed" boolStr b.reviewed
    ++ qopt "owner" (fun s => s) b.owner
    ++ qopt "team" (fun s => s) b.team
    ++ qopt "page" intStr b.page
    ++ qopt "limit" intStr b.limit

/-- The full query-pair list rendered by `SearchIssuesBuilder::send`
(issues.rs lines 61-71): the derived `append_query_params`, then a manual
comma-joined append of `labels`. Nothing ever appends `milestones`. -/
def SearchIssuesBuilder.queryPairs (b : SearchIssuesBuilder) : List (String × String) :=
  SearchIssuesBuilder.append_query_params b ++ qopt "labels" joinComma b.labels

/-- Builder of the list-access-tokens operation (src/src/api/user/tokens.rs
lines 9-18): fixed `username` (skipped for the query), optional
`page`/`limit`. -/
structure ListAccessTokensBuilder : Type where
  username : String
  page : Option Int
  limit : Option Int
  deriving DecidableEq

/-- `ListAccessTokensBuilder::new` (tokens.rs lines 40-46). -/
def ListAccessTokensBuilder.new (username : String) : ListAccessTokensBuilder :=
  { username := username, page := none, limit := none }

/-- The `append_query_params` method the `QueryParams` derive macro
generates for `ListAccessTokensBuilder`: `username` is skipped; `page` and
`limit` append in declaration order when present. -/
def ListAccessTokensBuilder.append_query_params (b : ListAccessTokensBuilder) :
    List (String × String) :=
  qopt "page" intStr b.page ++ qopt "limit" intStr b.limit

/-- Per-field metadata the `QueryParams` derive macro works from: the
field's own name, an optional `rename`, a `skip` flag, and the projection of
the builder to the field's stringified value (absent when the field is
absent; skipped fields have no `Display` and carry no value). -/
structure QueryFieldMeta (β : Type) : Type where
  name : String
  rename : Option String
  skip : Bool
  value : β → Option String

/-- The query-parameter projection as the spec words it: an ordered
traversal of the field list producing one (wire-name, value) pair per
non-skipped present field, where the wire name is the rename when given and
the field's own name otherwise. -/
def specQueryProjection {β : Type} (meta : List (QueryFieldMeta β)) (b : β) :
    List (String × String) :=
  meta.filterMap fun m =>
    if m.skip then none
    else (m.value b).map fun s => (m.rename.getD m.name, s)

/-- Field metadata of `SearchIssuesBuilder` as declared in the source
(declaration order, `query_params` attributes). -/
def SearchIssuesBuilder.fieldMeta : List (QueryFieldMeta SearchIssuesBuilder) :=
  [ ⟨"state", none, false, fun b => b.state.map State.toStr⟩
  , ⟨"labels", none, true, fun _ => none⟩
  , ⟨"milestones", none, true, fun _ => none⟩
  , ⟨"query", some "q", false, fun b => b.query.map (fun s => s)⟩
  , ⟨"priority_repo_id", none, false, fun b => b.priority_repo_id.map intStr⟩
  , ⟨"issue_type", some "type", false, fun b => b.issue_type.map IssueType.toStr⟩
  , ⟨"since", none, false, fun b => b.since.map (fun s => s)⟩
  , ⟨"before", none, false, fun b => b.before.map (fun s => s)⟩
  , ⟨"assigned", none, false, fun b => b.assigned.map boolStr⟩
  , ⟨"created", none, false, fun b => b.created.map boolStr⟩
  , ⟨"mentioned", none, false, fun b => b.mentioned.map boolStr⟩
  , ⟨"review_requested", none, false, fun b => b.review_requested.map boolStr⟩
  , ⟨"reviewed", none, false, fun b => b.reviewed.map boolStr⟩
  , ⟨"owner", none, false, fun b => b.owner.map (fun s => s)⟩
  , ⟨"team", none, false, fun b => b.team.map (fun s => s)⟩
  , ⟨"page", none, false, fun b => b.page.map intStr⟩
  , ⟨"limit", none, false, fun b => b.limit.map intStr⟩ ]

/-- Field metadata of `ListAccessTokensBuilder` as declared in the source. -/
def ListAccessTokensBuilder.fieldMeta : List (QueryFieldMeta ListAccessTokensBuilder) :=
  [ ⟨"username", none, true, fun _ => none⟩
  , ⟨"page", none, false, fun b => b.page.map intStr⟩
  , ⟨"limit", none, false, fun b => b.limit.map intStr⟩ ]

/-- Options of `Client::get_commits` (src/src/lib.rs lines 187-221):
`sha`/`path`/`page`/`limit`/`not` optional; `stat`/`verification`/`files`
are plain `bool` fields. -/
structure GetCommitsOption : Type where
  sha : Option String
  path : Option String
  stat : Bool
  verification : Bool
  files : Bool
  page : Option Int
  limit : Option Int
  not : Option String
  deriving DecidableEq

/-- Rust `derive(Default)` for `GetCommitsOption`: `bool::default()` is
`false`, so `stat`/`verification`/`files` start `false` — the
`#[serde(default = "default_true")]` attributes apply only to
deserialization, not to `Default::default()`, although the field doc
comments say "Defaults to true". -/
def GetCommitsOption.default : GetCommitsOption :=
  { sha := none, path := none, stat := false, verification := false, files := false
  , page := none, limit := none, not := none }

/-- The query pairs appended by `Client::get_commits` (src/src/lib.rs lines
704-725): `sha` and `path` when present; then `stat`, `verification` and
`files` appended unconditionally via `to_string()` of the bool; then
`page`, `limit` and `not` when present. -/
def Client.get_commits_query (o : GetCommitsOption) : List (String × String) :=
  qopt "sha" (fun s => s) o.sha
    ++ qopt "path" (fun s => s) o.path
    ++ [("stat", boolStr o.stat), ("verification", boolStr o.verification),
        ("files", boolStr o.files)]
    ++ qopt "page" intStr o.page
    ++ qopt "limit" intStr o.limit
    ++ qopt "not" (fun s => s) o.not

/-- Builder of the edit-repository operation (src/src/api/repos/edit.rs
lines 9-87): fixed `owner`/`repo` (serde-skipped), 31 optional fields. None
of the optional fields carries `skip_serializing_if`, so serde serializes
every one of them, emitting `null` for `None`. -/
structure EditRepoBuilder : Type where
  owner : String
  repo : String
  allow_fast_forward_only_merge : Option Bool
  allow_manual_merge : Option Bool
  allow_merge_commits : Option Bool
  allow_rebase : Option Bool
  allow_rebase_explicit : Option Bool
  allow_rebase_update : Option Bool
  allow_squash_merge : Option Bool
  archived : Option Bool
  autodetect_manual_merge : Option Bool
  default_allow_maintainer_edit : Option Bool
  default_branch : Option String
  default_delete_branch_after_merge : Option Bool
  default_merge_style : Option String
  description : Option String
  enable_prune : Option Bool
  external_tracker : Option ExternalTracker
  external_wiki : Option ExternalWiki
  has_actions : Option Bool
  has_issues : Option Bool
  has_packages : Option Bool
  has_projects : Option Bool
  has_pull_requests : Option Bool
  has_releases : Option Bool
  has_wiki : Option Bool
  ignore_whitespace_conflicts : Option Bool
  mirror_interval : Option String
  name : Option String
  «private» : Option Bool
  projects_mode : Option String
  template : Option Bool
  website : Option String
  deriving DecidableEq

/-- `EditRepoBuilder::new` (edit.rs lines 90-125): every optional field
starts unset. -/
def EditRepoBuilder.new (owner repo : String) : EditRepoBuilder :=
  { owner := owner, repo := repo
  , allow_fast_forward_only_merge := none, allow_manual_merge := none
  , allow_merge_commits := none, allow_rebase := none, allow_rebase_explicit := none
  , allow_rebase_update := none, allow_squash_merge := none, archived := none
  , autodetect_manual_merge := none, default_allow_maintainer_edit := none
  , default_branch := none, default_delete_branch_after_merge := none
  , default_merge_style := none, description := none, enable_prune := none
  , external_tracker := none, external_wiki := none, has_actions := none
  , has_issues := none, has_packages := none, has_projects := none
  , has_pull_requests := none, has_releases := none, has_wiki := none
  , ignore_whitespace_conflicts := none, mirror_interval := none, name := none
  , «private» := none, projects_mode := none, template := none, website := none }

/-- The JSON body serde produces for `EditRepoBuilder` when `send` calls
`.json(&self)` (edit.rs lines 127-135): `owner`/`repo` are skipped, every
other field is emitted — `null` when unset. -/
def EditRepoBuilder.bodyFields (b : EditRepoBuilder) : List (String × Json) :=
  [ ("allow_fast_forward_only_merge", optJson Json.bool b.allow_fast_forward_only_merge)
  , ("allow_manual_merge", optJson Json.bool b.allow_manual_merge)
  , ("allow_merge_commits", optJson Json.bool b.allow_merge_commits)
  , ("allow_rebase", optJson Json.bool b.allow_rebase)
  , ("allow_rebase_explicit", optJson Json.bool b.allow_rebase_explicit)
  , ("allow_rebase_update", optJson Json.bool b.allow_rebase_update)
  , ("allow_squash_merge", optJson Json.bool b.allow_squash_merge)
  , ("archived", optJson Json.bool b.archived)
  , ("autodetect_manual_merge", optJson Json.bool b.autodetect_manual_merge)
  , ("default_allow_maintainer_edit", optJson Json.bool b.default_allow_maintainer_edit)
  , ("default_branch", optJson Json.str b.default_branch)
  , ("default_delete_branch_after_merge", optJson Json.bool b.default_delete_branch_after_merge)
  , ("default_merge_style", optJson Json.str b.default_merge_style)
  , ("description", optJson Json.str b.description)
  , ("enable_prune", optJson Json.bool b.enable_prune)
  , ("external_tracker", optJson ExternalTracker.toJson b.external_tracker)
  , ("external_wiki", optJson ExternalWiki.toJson b.external_wiki)
  , ("has_actions", optJson Json.bool b.has_actions)
  , ("has_issues", optJson Json.bool b.has_issues)
  , ("has_packages", optJson Json.bool b.has_packages)
  , ("has_projects", optJson Json.bool b.has_projects)
  , ("has_pull_requests", optJson Json.bool b.has_pull_requests)
  , ("has_releases", optJson Json.bool b.has_releases)
  , ("has_wiki", optJson Json.bool b.has_wiki)
  , ("ignore_whitespace_conflicts", optJson Json.bool b.ignore_whitespace_conflicts)
  , ("mirror_interval", optJson Json.str b.mirror_interval)
  , ("name", optJson Json.str b.name)
  , ("private", optJson Json.bool b.«private»)
  , ("projects_mode", optJson Json.str b.projects_mode)
  , ("template", optJson Json.bool b.template)
  , ("website", optJson Json.str b.website) ]

/-- Builder of the create-issue operation (src/src/api/issues/create.rs
lines 6-32): fixed `owner`/`repo` (serde-skipped) and required `title`;
every optional field carries
`#[serde(skip_serializing_if = "Option::is_none")]`. -/
structure CreateIssueBuilder : Type where
  owner : String
  repo : String
  title : String
  assignees : Option (List String)
  body : Option String
  closed : Option Bool
  due_date : Option String
  labels : Option (List Int)
  milestone : Option Int
  ref : Option String
  deriving DecidableEq

/-- `CreateIssueBuilder::new` (create.rs lines 35-48): every optional field
starts unset. -/
def CreateIssueBuilder.new (owner repo title : String) : CreateIssueBuilder :=
  { owner := owner, repo := repo, title := title, assignees := none, body := none
  , closed := none, due_date := none, labels := none, milestone := none, ref := none }

/-- The JSON body serde produces for `CreateIssueBuilder` when `send` calls
`.json(self)` (create.rs lines 50-61): `title` always, then each present
optional field under its serde wire name (`r#ref` serializes as "ref");
absent fields are omitted entirely. -/
def CreateIssueBuilder.bodyFields (b : CreateIssueBuilder) : List (String × Json) :=
  ("title", Json.str b.title)
    :: (optEntry "assignees" (fun xs => Json.arr (xs.map Json.str)) b.assignees
        ++ optEntry "body" Json.str b.body
        ++ optEntry "closed" Json.bool b.closed
        ++ optEntry "due_date" Json.str b.due_date
        ++ optEntry "labels" (fun xs => Json.arr (xs.map Json.num)) b.labels
        ++ optEntry "milestone" Json.num b.milestone
        ++ optEntry "ref" Json.str b.ref)

/-- `qopt` with the identity stringifier over a mapped option is `qopt` with
the stringifier itself. -/
theorem qopt_map {α : Type} (k : String) (f : α → String) (v : Option α) :
    qopt k (fun s => s) (v.map f) = qopt k f v := by
  cases v <;> rfl

/-- Unfolding `specQueryProjection` one field at a time: each field
contributes its `qopt` cell under its wire name unless skipped. -/
theorem specQueryProjection_cons {β : Type} (m : QueryFieldMeta β)
    (rest : List (QueryFieldMeta β)) (b : β) :
    specQueryProjection (m :: rest) b =
      (if m.skip then [] else qopt (m.rename.getD m.name) (fun s => s) (m.value b))
        ++ specQueryProjection rest b := by
  by_cases hs : m.skip
  · simp [specQueryProjection, List.filterMap_cons, hs]
  · cases hv : m.value b <;>
      simp [specQueryProjection, List.filterMap_cons, hs, hv, qopt]

/-- `specQueryProjection` of no fields is empty. -/
theorem specQueryProjection_nil {β : Type} (b : β) :
    specQueryProjection ([] : List (QueryFieldMeta β)) b = [] := rfl

/-- An absent optional field contributes nothing to a
`skip_serializing_if` body. -/
theorem optEntry_none {α : Type} (k : String) (enc : α → Json) :
    optEntry k enc none = [] := rfl

/-- An absent option serializes as `null` when no `skip_serializing_if` is
declared. -/
theorem optJson_none {α : Type} (enc : α → Json) : optJson enc none = Json.null := rfl

/-- A body segment for a differently-named field is transparent to lookup. -/
theorem lookupField_optEntry_append_ne {α : Type} {k k' : String} (h : ¬(k = k'))
    (enc : α → Json) (v : Option α) (rest : List (String × Json)) :
    lookupField (optEntry k enc v ++ rest) k' = lookupField rest k' := by
  cases v <;> simp [optEntry, lookupField, h]

/-- A lone body segment for a differently-named field contains no key for
the looked-up field. -/
theorem lookupField_optEntry_ne {α : Type} {k k' : String} (h : ¬(k = k'))
    (enc : α → Json) (v : Option α) :
    lookupField (optEntry k enc v) k' = none := by
  cases v <;> simp [optEntry, lookupField, h]

/-- Rust `derive(Default)` for `Repository`. -/
def Repository.default : Repository :=
  { allow_fast_forward_only_merge := false, allow_merge_commits := false
  , allow_rebase := false, allow_rebase_explicit := false, allow_rebase_update := false
  , allow_squash_merge := false, archived := false, archived_at := "", avatar_url := ""
  , clone_url := "", created_at := "", default_allow_maintainer_edit := false
  , default_branch := "", default_delete_branch_after_merge := false
  , default_merge_style := "", description := "", empty := false, fork := false
  , forks_count := 0, full_name := "", has_actions := false, has_issues := false
  , has_packages := false, has_projects := false, has_pull_requests := false
  , has_releases := false, has_wiki := false, html_url := "", id := 0
  , ignore_whitespace_conflicts := false, internal := false, language := ""
  , languages_url := "", link := "", mirror := false, mirror_interval := ""
  , mirror_updated := "", name := "", object_format_name := ObjectFormatName.default
  , open_issues_count := 0, open_pr_counter := 0, original_url := ""
  , owner := User.default, «private» := false, release_counter := 0, size := 0
  , ssh_url := "", stars_count := 0, template := false, updated_at := "", url := ""
  , watchers_count := 0, website := "", wiki_branch := "" }

/-- Rust `derive(Default)` for `Issue`. -/
def Issue.default : Issue :=
  { assets := [], assignee := none, assignees := none, body := none
  , closed_at := none, comments := 0, created_at := "", due_date := none
  , html_url := "", id := 0, is_locked := false, labels := [], number := 0
  , original_author := "", original_author_id := 0, pin_order := 0, ref := ""
  , state := State.default, updated_at := "", title := "", url := ""
  , user := User.default }

/-- A complete comment body, as the edit-comment endpoint returns on a 200
response: every `Comment` field present (all of them are required). -/
def commentFixture : String :=
  "\x7b\"assets\":[],\"body\":\"hi\",\"created_at\":\"2024-01-01\",\"html_url\":\"h\",\"id\":7,\"issue_url\":\"i\",\"original_author\":\"\",\"original_author_id\":0,\"pull_request_url\":\"p\",\"updated_at\":\"u\",\"user\":\x7b\"login\":\"alice\"\x7d\x7d"

/-- The `Comment` value `commentFixture` deserializes to. -/
def fixtureComment : Comment :=
  { assets := [], body := "hi", created_at := "2024-01-01", html_url := "h"
  , id := 7, issue_url := "i", original_author := "", original_author_id := 0
  , pull_request_url := "p", updated_at := "u"
  , user := { User.default with login := "alice" } }

/-- A search envelope body with an empty result list and `ok` set to
`false`, to exhibit that the `ok` flag is discarded. -/
def envFixture : String := "\x7b\"ok\":false,\"data\":[]\x7d"

/-- The 31 optional-field wire names `EditRepoBuilder` always serializes. -/
def editRepoBodyKeys : List String :=
  [ "allow_fast_forward_only_merge", "allow_manual_merge", "allow_merge_commits"
  , "allow_rebase", "allow_rebase_explicit", "allow_rebase_update"
  , "allow_squash_merge", "archived", "autodetect_manual_merge"
  , "default_allow_maintainer_edit", "default_branch"
  , "default_delete_branch_after_merge", "default_merge_style", "description"
  , "enable_prune", "external_tracker", "external_wiki", "has_actions"
  , "has_issues", "has_packages", "has_projects", "has_pull_requests"
  , "has_releases", "has_wiki", "ignore_whitespace_conflicts", "mirror_interval"
  , "name", "private", "projects_mode", "template", "website" ]

/-- C4, counterexample to the claim as stated: `make_request` hands a
304-status response through as `Ok`, so a caller can receive a non-2xx
response value — only 4xx/5xx are converted to errors. -/
theorem make_request_304_passthrough :
    Client.make_request { status := 304, body := "m" } =
      Except.ok { status := 304, body := "m" } ∧
    ¬(200 ≤ 304 ∧ 304 < 300) := by
  exact ⟨rfl, by decide⟩

/-- C4 (amended): for a 4xx/5xx response, `make_request` returns an
`HttpError` whose message is the body text and whose status is the response
status; for a 2xx response it returns `Ok` with the raw response; and any
`Ok` result is the unchanged response, which is never a 4xx/5xx (though it
may be a non-2xx such as 304). -/
theorem make_request_spec (resp : RawResponse) :
    (400 ≤ resp.status ∧ resp.status ≤ 599 →
      Client.make_request resp =
        Except.error { message := resp.body, kind := TeatimeErrorKind.HttpError
                     , status_code := resp.status }) ∧
    (200 ≤ resp.status ∧ resp.status < 300 →
      Client.make_request resp = Except.ok resp) ∧
    (∀ r, Client.make_request resp = Except.ok r →
      r = resp ∧ ¬(400 ≤ r.status ∧ r.status ≤ 599)) := by
  refine ⟨fun h => ?_, fun h => ?_, fun r hr => ?_⟩
  · unfold Client.make_request
    rw [if_pos (by omega)]
  · unfold Client.make_request
    rw [if_neg (by omega)]
  · unfold Client.make_request at hr
    by_cases hc : (400 ≤ resp.status ∧ resp.status ≤ 499) ∨
        (500 ≤ resp.status ∧ resp.status ≤ 599)
    · rw [if_pos hc] at hr
      exact absurd hr (by simp)
    · rw [if_neg hc] at hr
      simp only [Except.ok.injEq] at hr
      subst hr
      exact ⟨rfl, by omega⟩

/-- C4 witness: `make_request_spec` evaluated at a 404 response and at a 200
response. -/
theorem make_request_spec_witness :
    Client.make_request { status := 404, body := "nf" } =
      Except.error { message := "nf", kind := TeatimeErrorKind.HttpError
                   , status_code := 404 } ∧
    Client.make_request { status := 200, body := "x" } =
      Except.ok { status := 200, body := "x" } :=
  ⟨(make_request_spec { status := 404, body := "nf" }).1 (by decide),
   (make_request_spec { status := 200, body := "x" }).2.1 (by decide)⟩

/-- C8: when the body text fails deserialization into the target type,
`parse_response` returns a `SerializationError` carrying the status read
from the response before the body was consumed; when the body deserializes,
it returns the value. Generic in the target type's deserializer `dec`. -/
theorem parse_response_spec {α : Type} (dec : String → Except String α)
    (res : RawResponse) :
    (∀ m, dec res.body = Except.error m →
      Client.parse_response dec res =
        Except.error { message := "Error parsing response: " ++ m
                     , kind := TeatimeErrorKind.SerializationError
                     , status_code := res.status }) ∧
    (∀ v, dec res.body = Except.ok v →
      Client.parse_response dec res = Except.ok v) := by
  constructor
  · intro m hm
    unfold Client.parse_response
    rw [hm]
  · intro v hv
    unfold Client.parse_response
    rw [hv]

/-- C8 witness: `parse_response_spec` evaluated at a failing and a
succeeding deserializer on concrete responses. -/
theorem parse_response_spec_witness :
    Client.parse_response (fun _ => (Except.error "boom" : Except String Nat))
        { status := 207, body := "zzz" } =
      Except.error { message := "Error parsing response: boom"
                   , kind := TeatimeErrorKind.SerializationError
                   , status_code := 207 } ∧
    Client.parse_response (fun s => (Except.ok s.length : Except String Nat))
        { status := 200, body := "ab" } = Except.ok 2 :=
  ⟨(parse_response_spec (fun _ => Except.error "boom")
      { status := 207, body := "zzz" }).1 "boom" rfl,
   (parse_response_spec (fun s => Except.ok s.length)
      { status := 200, body := "ab" }).2 2 rfl⟩

/-- C3: for both existence checks (organization membership, star check), a
404 response maps to `Ok(false)`, a 2xx response maps to `Ok(true)`, and any
other 4xx/5xx response propagates the transport's `HttpError` unchanged. -/
theorem existence_check_spec (bm : IsMemberBuilder) (bs : IsStarredBuilder)
    (resp : RawResponse) :
    (resp.status = 404 →
      IsMemberBuilder.send bm resp = Except.ok false ∧
      IsStarredBuilder.send bs resp = Except.ok false) ∧
    (200 ≤ resp.status ∧ resp.status < 300 →
      IsMemberBuilder.send bm resp = Except.ok true ∧
      IsStarredBuilder.send bs resp = Except.ok true) ∧
    (400 ≤ resp.status ∧ resp.status ≤ 599 ∧ resp.status ≠ 404 →
      IsMemberBuilder.send bm resp =
        Except.error { message := resp.body, kind := TeatimeErrorKind.HttpError
                     , status_code := resp.status } ∧
      IsStarredBuilder.send bs resp =
        Except.error { message := resp.body, kind := TeatimeErrorKind.HttpError
                     , status_code := resp.status }) := by
  obtain ⟨s, body⟩ := resp
  refine ⟨fun h => ?_, fun h => ?_, fun h => ?_⟩
  · simp only at h
    subst h
    exact ⟨rfl, rfl⟩
  · simp only at h
    have hc : ¬((400 ≤ s ∧ s ≤ 499) ∨ (500 ≤ s ∧ s ≤ 599)) := by omega
    simp [IsMemberBuilder.send, IsStarredBuilder.send, Client.make_request, hc]
  · simp only at h
    have hc : (400 ≤ s ∧ s ≤ 499) ∨ (500 ≤ s ∧ s ≤ 599) := by omega
    have hne : ¬(s = 404) := h.2.2
    simp [IsMemberBuilder.send, IsStarredBuilder.send, Client.make_request, hc, hne]

/-- C3 witness: `existence_check_spec` evaluated at a 404, a 200, and a 500
response. -/
theorem existence_check_spec_witness :
    IsMemberBuilder.send { org := "o", username := "u" } { status := 404, body := "" } =
      Except.ok false ∧
    IsStarredBuilder.send { owner := "o", repo := "r" } { status := 200, body := "" } =
      Except.ok true ∧
    IsMemberBuilder.send { org := "o", username := "u" } { status := 500, body := "err" } =
      Except.error { message := "err", kind := TeatimeErrorKind.HttpError
                   , status_code := 500 } :=
  ⟨((existence_check_spec { org := "o", username := "u" } { owner := "o", repo := "r" }
      { status := 404, body := "" }).1 rfl).1,
   ((existence_check_spec { org := "o", username := "u" } { owner := "o", repo := "r" }
      { status := 200, body := "" }).2.1 (by decide)).2,
   ((existence_check_spec { org := "o", username := "u" } { owner := "o", repo := "r" }
      { status := 500, body := "err" }).2.2 (by decide)).1⟩

/-- C1, evaluated at the failing input: a simulated 204 success with empty
body does NOT yield `Ok(None)` — `serde_json::from_str` rejects the empty
text, so `EditCommentBuilder::send` returns a `SerializationError` (while
its own doc comment and `Option<Comment>` return type promise "no value");
a 200 response with a full comment body does yield `Ok(Some(comment))`. -/
theorem editComment_send_204_empty_body :
    EditCommentBuilder.send (EditCommentBuilder.new "o" "r" 1 "b")
        { status := 204, body := "" } =
      Except.error { message := "Error parsing response: EOF while parsing a value"
                   , kind := TeatimeErrorKind.SerializationError
                   , status_code := 204 } ∧
    EditCommentBuilder.send (EditCommentBuilder.new "o" "r" 1 "b")
        { status := 200, body := commentFixture } =
      Except.ok (some fixtureComment) :=
  ⟨rfl, rfl⟩

/-- C7: for a 2xx response whose body is the envelope with an `ok` flag and
a `data` array that deserializes into a list, both search sends return
exactly that list, whatever the `ok` flag was. -/
theorem search_envelope_unwrap (s : Nat) (body : String) (okb : Bool) (d : Json)
    (lr : List Repos.Repository) (lu : List User) :
    200 ≤ s → s < 300 →
    jsonFromStr body = Except.ok (Json.obj [("ok", Json.bool okb), ("data", d)]) →
    (asVec Repos.Repository.fromJson d = Except.ok lr →
      SearchRepositoriesBuilder.send { status := s, body := body } = Except.ok lr) ∧
    (asVec User.fromJson d = Except.ok lu →
      SearchUsersBuilder.send { status := s, body := body } = Except.ok lu) := by
  intro h1 h2 hjson
  have hmr : Client.make_request { status := s, body := body } =
      Except.ok { status := s, body := body } := by
    have hc : ¬((400 ≤ s ∧ s ≤ 499) ∨ (500 ≤ s ∧ s ≤ 599)) := by omega
    unfold Client.make_request
    rw [if_neg hc]
  constructor
  · intro hvec
    simp [SearchRepositoriesBuilder.send, hmr, Client.parse_response, decodeEnvelope,
      hjson, hvec, fieldR, lookupField, asBool, Bind.bind, Except.bind]
  · intro hvec
    simp [SearchUsersBuilder.send, hmr, Client.parse_response, decodeEnvelope,
      hjson, hvec, fieldR, lookupField, asBool, Bind.bind, Except.bind]

/-- C7 witness: `search_envelope_unwrap` on a concrete envelope with
`ok:false` and an empty `data` array, for both endpoints. -/
theorem search_envelope_unwrap_witness :
    SearchRepositoriesBuilder.send { status := 200, body := envFixture } =
      Except.ok [] ∧
    SearchUsersBuilder.send { status := 200, body := envFixture } = Except.ok [] :=
  ⟨(search_envelope_unwrap 200 envFixture false (Json.arr []) [] []
      (by decide) (by decide) rfl).1 rfl,
   (search_envelope_unwrap 200 envFixture false (Json.arr []) [] []
      (by decide) (by decide) rfl).2 rfl⟩

/-- C9: for the response models `User`, `Repository` and `Issue`, any value
obtained by a successful deserialization from a JSON fixture re-serializes
and re-deserializes to the identical value. -/
theorem model_roundtrip (ju jr ji : Json) (u : User) (r : Repository) (i : Issue) :
    (User.fromJson ju = Except.ok u →
      User.fromJson (User.toJson u) = Except.ok u) ∧
    (Repository.fromJson jr = Except.ok r →
      Repository.fromJson (Repository.toJson r) = Except.ok r) ∧
    (Issue.fromJson ji = Except.ok i →
      Issue.fromJson (Issue.toJson i) = Except.ok i) :=
  ⟨fun _ => user_fromJson_toJson u,
   fun _ => repository_fromJson_toJson r,
   fun _ => issue_fromJson_toJson i⟩

/-- C9 witness: `model_roundtrip` with the empty-object fixture, which every
`#[serde(default)]` model deserializes to its default value. -/
theorem model_roundtrip_witness :
    User.fromJson (User.toJson User.default) = Except.ok User.default ∧
    Repository.fromJson (Repository.toJson Repository.default) =
      Except.ok Repository.default ∧
    Issue.fromJson (Issue.toJson Issue.default) = Except.ok Issue.default :=
  ⟨(model_roundtrip (Json.obj []) (Json.obj []) (Json.obj [])
      User.default Repository.default Issue.default).1 rfl,
   (model_roundtrip (Json.obj []) (Json.obj []) (Json.obj [])
      User.default Repository.default Issue.default).2.1 rfl,
   (model_roundtrip (Json.obj []) (Json.obj []) (Json.obj [])
      User.default Repository.default Issue.default).2.2 rfl⟩

/-- C2, counterexample to the claim as stated: `EditRepoBuilder::new` leaves
`name` unset, yet the serialized JSON body still contains a "name" key
(bound to `null`), because `EditRepoBuilder` declares no
`skip_serializing_if` on its optional fields. -/
theorem editRepo_unset_name_serialized :
    (EditRepoBuilder.new "o" "r").name = none ∧
    lookupField (EditRepoBuilder.bodyFields (EditRepoBuilder.new "o" "r")) "name" ≠
      none := by
  have h0 : lookupField (EditRepoBuilder.bodyFields (EditRepoBuilder.new "o" "r"))
      "name" = some Json.null := rfl
  refine ⟨rfl, ?_⟩
  rw [h0]
  simp

/-- C2 (amended): unset optional fields are omitted from the JSON body for
builders whose fields carry `skip_serializing_if = "Option::is_none"`
(`CreateIssueBuilder`, shown for each of its seven optional fields), but
`EditRepoBuilder` serializes all 31 optional-field keys unconditionally,
with an unset field appearing as an explicit `null` rather than being
omitted. -/
theorem absence_preservation_amended (bc : CreateIssueBuilder) (be : EditRepoBuilder) :
    (bc.assignees = none →
      lookupField (CreateIssueBuilder.bodyFields bc) "assignees" = none) ∧
    (bc.body = none →
      lookupField (CreateIssueBuilder.bodyFields bc) "body" = none) ∧
    (bc.closed = none →
      lookupField (CreateIssueBuilder.bodyFields bc) "closed" = none) ∧
    (bc.due_date = none →
      lookupField (CreateIssueBuilder.bodyFields bc) "due_date" = none) ∧
    (bc.labels = none →
      lookupField (CreateIssueBuilder.bodyFields bc) "labels" = none) ∧
    (bc.milestone = none →
      lookupField (CreateIssueBuilder.bodyFields bc) "milestone" = none) ∧
    (bc.ref = none →
      lookupField (CreateIssueBuilder.bodyFields bc) "ref" = none) ∧
    ((EditRepoBuilder.bodyFields be).map Prod.fst = editRepoBodyKeys) ∧
    (be.name = none →
      lookupField (EditRepoBuilder.bodyFields be) "name" = some Json.null) := by
    refine ⟨fun h => ?_, fun h => ?_, fun h => ?_, fun h => ?_, fun h => ?_,
      fun h => ?_, fun h => ?_, rfl, fun h => ?_⟩
    all_goals
      simp +decide [CreateIssueBuilder.bodyFields, EditRepoBuilder.bodyFields,
        lookupField, h, optEntry_none, optJson_none,
        lookupField_optEntry_append_ne, lookupField_optEntry_ne]

/-- C2 witness: `absence_preservation_amended` at freshly-constructed
builders with nothing set. -/
theorem absence_preservation_amended_witness :
    lookupField
        (CreateIssueBuilder.bodyFields (CreateIssueBuilder.new "acme" "widgets" "bug"))
        "body" = none ∧
    lookupField (EditRepoBuilder.bodyFields (EditRepoBuilder.new "acme" "widgets"))
        "name" = some Json.null :=
  ⟨(absence_preservation_amended (CreateIssueBuilder.new "acme" "widgets" "bug")
      (EditRepoBuilder.new "acme" "widgets")).2.1 rfl,
   (absence_preservation_amended (CreateIssueBuilder.new "acme" "widgets" "bug")
      (EditRepoBuilder.new "acme" "widgets")).2.2.2.2.2.2.2.2 rfl⟩

/-- C5, evaluated at the failing input: setting `milestones` on the
search-issues builder puts NO "milestones" key in the query (the field is
`query_params(skip)`-marked and `send` never appends it), although its doc
comment documents it as a milestone filter; `labels` on the same builder and
on the list-issues builder renders as a single comma-joined pair, as
claimed. -/
theorem searchIssues_milestones_dropped :
    SearchIssuesBuilder.queryPairs
        { SearchIssuesBuilder.new with milestones := some ["v1.0"] } = [] ∧
    SearchIssuesBuilder.queryPairs
        { SearchIssuesBuilder.new with labels := some ["a", "b"] } =
      [("labels", "a,b")] ∧
    ListIssuesBuilder.queryPairs
        { ListIssuesBuilder.new "o" "r" with labels := some ["x", "y"] } =
      [("labels", "x,y")] :=
  ⟨rfl, rfl, rfl⟩

/-- C6: for both option sets processed by the derived `append_query_params`
(`SearchIssuesBuilder`, `ListAccessTokensBuilder`), the produced pair
sequence is exactly the per-field-metadata projection: one pair per present
non-skipped field, in declaration order, keyed by the rename when given and
the field name otherwise. -/
theorem append_query_params_spec :
    (∀ b : SearchIssuesBuilder,
      SearchIssuesBuilder.append_query_params b =
        specQueryProjection SearchIssuesBuilder.fieldMeta b) ∧
    (∀ b : ListAccessTokensBuilder,
      ListAccessTokensBuilder.append_query_params b =
        specQueryProjection ListAccessTokensBuilder.fieldMeta b) := by
  constructor
  · intro b
    simp [SearchIssuesBuilder.append_query_params, SearchIssuesBuilder.fieldMeta,
      specQueryProjection_cons, specQueryProjection_nil, qopt_map]
  · intro b
    simp [ListAccessTokensBuilder.append_query_params, ListAccessTokensBuilder.fieldMeta,
      specQueryProjection_cons, specQueryProjection_nil, qopt_map]

/-- C10: `get_commits` always renders the three keys `stat`, `verification`
and `files` (with the bool's `to_string()` value), for every option value;
and at `GetCommitsOption::default()` those values are all "false" — the
`derive(Default)` bools start `false` even though the field docs and the
deserialization-only `default_true` attribute say they default to true. -/
theorem get_commits_query_unconditional_flags :
    (∀ o : GetCommitsOption,
      ("stat", boolStr o.stat) ∈ Client.get_commits_query o ∧
      ("verification", boolStr o.verification) ∈ Client.get_commits_query o ∧
      ("files", boolStr o.files) ∈ Client.get_commits_query o) ∧
    Client.get_commits_query GetCommitsOption.default =
      [("stat", "false"), ("verification", "false"), ("files", "false")] := by
  constructor
  · intro o
    refine ⟨?_, ?_, ?_⟩ <;> simp [Client.get_commits_query]
  · rfl

end Teatime
